import Mathlib

/-!
# Verification of the JustDownloadWebApp task/concurrency core

Shallow embedding of `backend/main.py`: the `Task` state record, the
progress-parsing pipeline of `run_ytdlp`, the byte-ratio updates of
`run_image`, the manager registry endpoints (`start_download`,
`cancel_task`, `pause_task`, `resume_task`) and the cleanup sweep
(`cleanup_worker`).

Modelling conventions:
* Python floats are modelled as exact rationals (`ℚ`).  `float(...)`
  parsing accepts the ordinary decimal forms (optional sign, digits,
  decimal point, exponent); the exotic forms `inf`/`nan`/underscore
  separators are treated as parse failures, which the code's
  `try/except` maps to "leave prior values unchanged" just like any
  other unparsable token.
* Python statuses and control flags are the literal strings used by the
  code (`"pending"`, `"downloading"`, `"paused"`, `"canceled"`,
  `"completed"`, `"error"`; control `""`/`"pause"`/`"cancel"`).
* Each `with task.lock:` block of the source is one atomic state
  update; a worker's loop iteration is modelled by `processLine`
  (media) or `imageChunk` (image), and the interleaving of the worker
  with the HTTP control endpoints is the step relation `Step`.
-/

namespace JustDownload

/-- Whitespace characters recognised by Python `str.strip()` /
`str.split()` / the regex class `\s` (restricted to ASCII, which is all
the executable's transcript contains). -/
def isPySpace (c : Char) : Bool :=
  c = ' ' || c = '\t' || c = '\n' || c = '\r' || c = '\x0b' || c = '\x0c'

/-- Python `str.strip()` on a character list. -/
def stripList (cs : List Char) : List Char :=
  ((cs.dropWhile isPySpace).reverse.dropWhile isPySpace).reverse

/-- Python `str.strip()`. -/
def pyStrip (s : String) : String := String.mk (stripList s.data)

/-- Python `str.strip(chars)` for a single character: removes every
leading and trailing occurrence of `q`. -/
def stripChar (q : Char) (cs : List Char) : List Char :=
  ((cs.dropWhile (fun c => c = q)).reverse.dropWhile (fun c => c = q)).reverse

/-- Python `str.rstrip(chars)` for a single character. -/
def rstripChar (q : Char) (cs : List Char) : List Char :=
  (cs.reverse.dropWhile (fun c => c = q)).reverse

/-- First occurrence of `pat` in `s`: returns the text before the match
and the text after it, mirroring Python `s.split(pat, 1)` when the
separator is present. -/
def splitFirstL (pat : List Char) : List Char → Option (List Char × List Char)
  | [] => if pat.isEmpty then some ([], []) else none
  | c :: cs =>
    if pat.isPrefixOf (c :: cs) then some ([], (c :: cs).drop pat.length)
    else
      match splitFirstL pat cs with
      | some (b, a) => some (c :: b, a)
      | none => none

/-- Python `pat in s`. -/
def containsSub (s pat : String) : Bool := (splitFirstL pat.data s.data).isSome

/-- Python `s.split(pat, 1)[0]` (the whole string when `pat` is absent). -/
def beforeFirst (s pat : String) : String :=
  match splitFirstL pat.data s.data with
  | some (b, _) => String.mk b
  | none => s

/-- Python `s.split(pat, 1)[1]`; only used after an `in` guard, so the
absent case (which would raise `IndexError`) returns `s` unreached. -/
def afterFirst (s pat : String) : String :=
  match splitFirstL pat.data s.data with
  | some (_, a) => String.mk a
  | none => s

/-- Python `s.startswith(pat)`. -/
def startsWithPy (s pat : String) : Bool := pat.data.isPrefixOf s.data

/-- Python `str.split()` (no argument): split on whitespace runs,
discarding empty tokens. -/
def splitWsAux : List Char → List Char → List (List Char)
  | [], acc => if acc.isEmpty then [] else [acc.reverse]
  | c :: cs, acc =>
    if isPySpace c then
      if acc.isEmpty then splitWsAux cs [] else acc.reverse :: splitWsAux cs []
    else splitWsAux cs (c :: acc)

/-- Python `s.split()`. -/
def pySplitWs (s : String) : List String :=
  (splitWsAux s.data []).map String.mk

/-- Numeric value of a digit string (Python `int` on `\d+`). -/
def digitsToNat (ds : List Char) : Nat :=
  ds.foldl (fun n c => n * 10 + (c.toNat - 48)) 0

/-- Exponent part of a Python float literal: `[+-]?digits`. -/
def parseExpPart (m : ℚ) (cs : List Char) : Option ℚ :=
  let (esign, cs') : Int × List Char :=
    match cs with
    | '+' :: r => (1, r)
    | '-' :: r => (-1, r)
    | r => (1, r)
  let ds := cs'.takeWhile Char.isDigit
  let rest := cs'.dropWhile Char.isDigit
  if ds.isEmpty || !rest.isEmpty then none
  else some (m * (10 : ℚ) ^ (esign * (digitsToNat ds : Int)))

/-- Python `float(s)` on the ordinary decimal forms, as an exact
rational; returns `none` exactly when `float` would raise `ValueError`
(and, per the file-level conventions, on `inf`/`nan`/underscores). -/
def pyFloat (s : String) : Option ℚ :=
  let cs := stripList s.data
  let (sign, cs') : ℚ × List Char :=
    match cs with
    | '+' :: r => (1, r)
    | '-' :: r => (-1, r)
    | r => (1, r)
  let intPart := cs'.takeWhile Char.isDigit
  let rest := cs'.dropWhile Char.isDigit
  match rest with
  | [] => if intPart.isEmpty then none else some (sign * (digitsToNat intPart : ℚ))
  | '.' :: r =>
    let fracPart := r.takeWhile Char.isDigit
    let rest2 := r.dropWhile Char.isDigit
    if intPart.isEmpty && fracPart.isEmpty then none
    else
      let mant : ℚ :=
        (digitsToNat intPart : ℚ) + (digitsToNat fracPart : ℚ) / (10 : ℚ) ^ fracPart.length
      match rest2 with
      | [] => some (sign * mant)
      | e :: er => if e = 'e' || e = 'E' then parseExpPart (sign * mant) er else none
  | e :: er =>
    if (e = 'e' || e = 'E') && !intPart.isEmpty then
      parseExpPart (sign * (digitsToNat intPart : ℚ)) er
    else none

/-- The unit alternation `(KiB|MiB|GiB)` of the speed regex, matched at
the head of `cs`; returns the unit text and the remainder. -/
def unitAt (cs : List Char) : Option (String × List Char) :=
  if ['K', 'i', 'B'].isPrefixOf cs then some ("KiB", cs.drop 3)
  else if ['M', 'i', 'B'].isPrefixOf cs then some ("MiB", cs.drop 3)
  else if ['G', 'i', 'B'].isPrefixOf cs then some ("GiB", cs.drop 3)
  else none

/-- Is `c` in the regex class `[0-9.]`? -/
def isNumDot (c : Char) : Bool := c.isDigit || c = '.'

/-- Match of `([0-9.]+)\s*(KiB|MiB|GiB)/s` anchored at the head of `cs`.
Backtracking over the greedy `[0-9.]+` and `\s*` never helps for this
pattern: a shorter number run leaves a `[0-9.]` character next (never a
unit letter or space start of a successful continuation), and a shorter
space run leaves a space (never a unit letter), so the maximal runs are
the only candidates, exactly as Python's engine resolves it. -/
def speedMatchAt (cs : List Char) : Option (String × String) :=
  let num := cs.takeWhile isNumDot
  if num.isEmpty then none
  else
    let r1 := (cs.dropWhile isNumDot).dropWhile isPySpace
    match unitAt r1 with
    | some (u, r2) => if ['/', 's'].isPrefixOf r2 then some (String.mk num, u) else none
    | none => none

/-- `re.search` of the speed pattern: leftmost position at which the
anchored match succeeds. -/
def speedSearch : List Char → Option (String × String)
  | [] => none
  | c :: cs =>
    match speedMatchAt (c :: cs) with
    | some r => some r
    | none => speedSearch cs

/-- Match of `ETA\s*(\d+):(\d+)` anchored at the head of `cs` (maximal
runs suffice for the same reason as in `speedMatchAt`). -/
def etaMatchAt (cs : List Char) : Option (Nat × Nat) :=
  if ['E', 'T', 'A'].isPrefixOf cs then
    let r := (cs.drop 3).dropWhile isPySpace
    let d1 := r.takeWhile Char.isDigit
    if d1.isEmpty then none
    else
      match r.dropWhile Char.isDigit with
      | ':' :: r2 =>
        let d2 := r2.takeWhile Char.isDigit
        if d2.isEmpty then none else some (digitsToNat d1, digitsToNat d2)
      | _ => none
  else none

/-- `re.search` of the ETA pattern. -/
def etaSearch : List Char → Option (Nat × Nat)
  | [] => none
  | c :: cs =>
    match etaMatchAt (c :: cs) with
    | some r => some r
    | none => etaSearch cs

/-- `os.path.basename` on a POSIX path: the text after the last `/`. -/
def pyBasename (s : String) : String :=
  String.mk ((s.data.reverse.takeWhile (fun c => c ≠ '/')).reverse)

/-- Python `int()` applied to a rational (truncation toward zero), as in
`int(remaining / task.speed)`. -/
def pyInt (x : ℚ) : Int := if 0 ≤ x then Rat.floor x else Rat.ceil x

/-- The `StartRequest` pydantic model: all four fields required strings. -/
structure StartRequest where
  url : String
  category : String
  fmt : String
  quality : String
deriving DecidableEq, Repr

/-- The mutable fields of a `Task` (the `threading.Lock` and `Thread`
handles carry no state and are not modelled; the per-lock atomicity they
provide is reflected in the granularity of the step functions below). -/
structure TaskState where
  id : String
  url : String
  category : String
  fmt : String
  quality : String
  status : String
  progress : ℚ
  title : Option String
  filename : Option String
  filepath : Option String
  message : Option String
  control : String
  speed : Option ℚ
  eta : Option Int
  downloaded_at : Option String
  download_url : Option String
deriving DecidableEq, Repr

/-- `Task.__init__`: a zero-progress `pending` record built from a
request. -/
def initTask (tid : String) (req : StartRequest) : TaskState :=
  { id := tid
    url := req.url
    category := req.category
    fmt := req.fmt
    quality := req.quality
    status := "pending"
    progress := 0
    title := none
    filename := none
    filepath := none
    message := none
    control := ""
    speed := none
    eta := none
    downloaded_at := none
    download_url := none }

/-- The first locked block of both workers: status `downloading`,
progress reset to `0.0` (main.py lines 234–236 and 344–346). -/
def workerStart (t : TaskState) : TaskState :=
  { t with status := "downloading", progress := 0 }

/-- The catch-all exception handler of both workers (main.py lines
336–339 and 390–393). -/
def setError (t : TaskState) (msg : String) : TaskState :=
  { t with status := "error", message := some msg }

/-- Percentage extraction from a (stripped) output line: the gate
`line.startswith("[download]") and "%" in line` followed by
`float(line.split("%", 1)[0].split()[-1])`; `none` when the gate fails
or the conversion raises (main.py lines 255–258). -/
def pctOf (line : String) : Option ℚ :=
  if startsWithPy line "[download]" && containsSub line "%" then
    match (pySplitWs (beforeFirst line "%")).getLast? with
    | some tok => pyFloat tok
    | none => none
  else none

/-- The ETA update at the end of the progress `try` block (main.py lines
269–273). -/
def etaBlock (t : TaskState) (line : String) : TaskState :=
  match etaSearch line.data with
  | some (mm, ss) => { t with eta := some ((mm : Int) * 60 + (ss : Int)) }
  | none => t

/-- The whole progress `try` block (main.py lines 255–275): progress is
clamped and written first; the speed and ETA updates follow, and a
failing `float(val)` aborts the rest of the block (exception swallowed)
with the progress write already committed. -/
def pctBlock (t : TaskState) (line : String) : TaskState :=
  match pctOf line with
  | none => t
  | some pct =>
    let t1 := { t with progress := max 0 (min 1 (pct / 100)) }
    match speedSearch line.data with
    | some (val, u) =>
      let mult : ℚ := if u = "KiB" then 1024 else if u = "MiB" then 1024 ^ 2 else 1024 ^ 3
      match pyFloat val with
      | none => t1
      | some v => etaBlock { t1 with speed := some (v * mult) } line
    | none => etaBlock t1 line

/-- The `Destination:` branch (main.py lines 278–282): filename and
download URL are set together. -/
def destBlock (t : TaskState) (line : String) : TaskState :=
  if containsSub line "Destination:" then
    let b := pyBasename (String.mk (stripChar '"' (stripList (afterFirst line "Destination:").data)))
    { t with filename := some b, download_url := some ("/downloads/" ++ b) }
  else t

/-- The `Merging formats into "` branch (main.py lines 284–288). -/
def mergeBlock (t : TaskState) (line : String) : TaskState :=
  if containsSub line "Merging formats into \"" then
    let b := pyBasename (String.mk (rstripChar '"' (afterFirst line "Merging formats into \"").data))
    { t with filename := some b, download_url := some ("/downloads/" ++ b) }
  else t

/-- The per-line control check (main.py lines 291–305); the Boolean is
the early `return`. -/
def controlBlock (t : TaskState) : TaskState × Bool :=
  if t.control = "pause" then ({ t with status := "paused" }, true)
  else if t.control = "cancel" then ({ t with status := "canceled" }, true)
  else (t, false)

/-- One iteration of `run_ytdlp`'s output loop on a raw line (main.py
lines 251–305). -/
def processLine (t : TaskState) (raw : String) : TaskState × Bool :=
  let line := pyStrip raw
  controlBlock (mergeBlock (destBlock (pctBlock t line) line) line)

/-- The whole output loop: processes lines in order, stopping at the
first pause/cancel return. -/
def processLines (t : TaskState) : List String → TaskState × Bool
  | [] => (t, false)
  | l :: ls =>
    match processLine t l with
    | (t', true) => (t', true)
    | (t', false) => processLines t' ls

/-- Python truthiness of an optional string field: `None` and the empty
string are falsy. -/
def pyTruthy : Option String → Bool
  | none => false
  | some s => if s = "" then false else true

/-- The task-id directory fallback (main.py lines 310–316), applied to
the basename of the first sorted `glob` match. -/
def globAdopt (t : TaskState) (f : String) : TaskState :=
  { t with filename := some f, download_url := some ("/downloads/" ++ f) }

/-- The final locked block of `run_ytdlp` (main.py lines 318–334),
embedded with its exact nesting: the outer branch unconditionally marks
`completed` first, then the (now always-true) inner guard re-examines
the filename and downgrades to `error` when none was resolved. -/
def finalize (t : TaskState) (now : String) : TaskState :=
  if t.status ≠ "paused" ∧ t.status ≠ "canceled" then
    let t1 := { t with progress := 1, status := "completed", downloaded_at := some now }
    let t2 :=
      match t1.filename with
      | some f => if f = "" then t1 else { t1 with download_url := some ("/downloads/" ++ f) }
      | none => t1
    if t2.status ≠ "paused" ∧ t2.status ≠ "canceled" then
      match t2.filename with
      | some f =>
        if f = "" then
          { t2 with status := "error", message := some "Download finished but file not found" }
        else
          { t2 with progress := 1, status := "completed", downloaded_at := some now,
                    download_url := some ("/downloads/" ++ f) }
      | none => { t2 with status := "error", message := some "Download finished but file not found" }
    else t2
  else t

/-- `run_ytdlp` after the subprocess launch, as a function of the
subprocess's output lines, the optional `{task.id}.*` glob result
(already reduced to a basename) and the completion timestamp string.
The exception path of the surrounding `try` is `setError`. -/
def run_ytdlp (t0 : TaskState) (lines : List String) (globMatch : Option String)
    (now : String) : TaskState :=
  match processLines (workerStart t0) lines with
  | (t, true) => t
  | (t, false) =>
    let t1 :=
      if pyTruthy t.filename = false then
        match globMatch with
        | some f => globAdopt t f
        | none => t
      else t
    finalize t1 now

/-- The filename `run_ytdlp` effectively resolves when no pause/cancel
fires: the truthy (non-empty) name captured during streaming, else the
glob fallback, itself subject to the final truthiness check. -/
def resolvedName (t0 : TaskState) (lines : List String) (globMatch : Option String) :
    Option String :=
  let fn := (processLines (workerStart t0) lines).1.filename
  let fn2 :=
    if pyTruthy fn = false then
      match globMatch with
      | some g => some g
      | none => fn
    else fn
  if pyTruthy fn2 = true then fn2 else none

/-- The per-chunk progress/speed/ETA update of `run_image` (main.py
lines 374–380), entered only when a `content-length` was reported. -/
def imageChunk (t : TaskState) (downloaded total elapsed : ℚ) : TaskState :=
  let sp := downloaded / max 1 elapsed
  { t with progress := max 0 (min 1 (downloaded / total))
           speed := some sp
           eta := if sp ≠ 0 then some (pyInt ((total - downloaded) / sp)) else none }

/-- The completion block of `run_image` (main.py lines 382–388). -/
def imageComplete (t : TaskState) (fname now : String) : TaskState :=
  { t with status := "completed", progress := 1, filename := some fname,
           download_url := some ("/downloads/" ++ fname), downloaded_at := some now }

/-- The destination filename of `run_image` (main.py lines 350–351):
the task id, a dot, and the requested format with leading dots stripped
(defaulting to `jpg` when the format is falsy). -/
def imageFname (t : TaskState) : String :=
  let ext := String.mk ((if t.fmt = "" then "jpg" else t.fmt).data.dropWhile (fun c => c = '.'))
  t.id ++ "." ++ ext

/-- Environment of one `run_image` run: an optional transport failure
(the `requests` call or `raise_for_status` raising), the chunk sizes
with the elapsed time observed at each, the `content-length` total, and
the completion timestamp. -/
structure ImageEnv where
  failure : Option String
  chunks : List (Nat × ℚ)
  total : Nat
  now : String
deriving Repr

/-- The chunk loop of `run_image` (main.py lines 358–380): skip empty
chunks, then the control check, then write and update. -/
def imageLoop (total : Nat) : TaskState → Nat → List (Nat × ℚ) → TaskState × Bool
  | t, _, [] => (t, false)
  | t, downloaded, (len, elapsed) :: rest =>
    if len = 0 then imageLoop total t downloaded rest
    else if t.control = "pause" then ({ t with status := "paused" }, true)
    else if t.control = "cancel" then ({ t with status := "canceled" }, true)
    else
      let d := downloaded + len
      let t' := if total ≠ 0 then imageChunk t (d : ℚ) (total : ℚ) elapsed else t
      imageLoop total t' d rest

/-- `run_image` (main.py lines 342–393). -/
def run_image (t0 : TaskState) (env : ImageEnv) : TaskState :=
  match env.failure with
  | some msg => setError (workerStart t0) msg
  | none =>
    let t := workerStart t0
    match imageLoop env.total t 0 env.chunks with
    | (t', true) => t'
    | (t', false) => imageComplete t' (imageFname t0) env.now

/-! ## Manager registry and HTTP endpoints -/

/-- The `Manager.tasks` dict, as an association list keyed by task id
(Python dict keys are unique; the operations below agree with dict
semantics on unique-key lists). -/
abbrev Mgr := List (String × TaskState)

/-- `Manager.get` / dict lookup. -/
def lookupTask : Mgr → String → Option TaskState
  | [], _ => none
  | (k, t) :: rest, tid => if k = tid then some t else lookupTask rest tid

/-- In-place mutation of the `Task` object held under `tid`. -/
def updateTask : Mgr → String → TaskState → Mgr
  | [], _, _ => []
  | (k, t) :: rest, tid, t' =>
    if k = tid then (k, t') :: updateTask rest tid t'
    else (k, t) :: updateTask rest tid t'

/-- An HTTP error response (`HTTPException(code, detail)`). -/
structure HErr where
  code : Nat
  detail : String
deriving DecidableEq, Repr

/-- `MAX_TASKS = 20` (main.py line 423). -/
def MAX_TASKS : Nat := 20

/-- The count of tasks whose status is `pending` or `downloading`
(main.py line 427). -/
def activeCount (m : Mgr) : Nat :=
  (m.filter (fun p => decide (p.2.status = "pending" ∨ p.2.status = "downloading"))).length

/-- `start_download` (main.py lines 425–453): rate-limit check, task
creation and registration, optional title prefetch; the worker thread's
effects happen asynchronously and are modelled by the step relation. -/
def start_download (m : Mgr) (tid : String) (req : StartRequest) (title : Option String) :
    Except HErr (Mgr × TaskState) :=
  if activeCount m ≥ MAX_TASKS then
    Except.error ⟨429, "⚠️ Too many active downloads (max 20). Please wait or clear old tasks."⟩
  else
    let t := initTask tid req
    let t1 :=
      if pyTruthy title = true then { t with title := title } else t
    Except.ok (m ++ [(tid, t1)], t1)

/-- The registry after a `start_download` request (unchanged when the
request raises). -/
def mgrAfterStart (m : Mgr) (tid : String) (req : StartRequest) (title : Option String) : Mgr :=
  match start_download m tid req title with
  | Except.ok (m', _) => m'
  | Except.error _ => m

/-- The locked mutation of `pause_task` (main.py lines 475–477). -/
def pauseOp (t : TaskState) : TaskState := { t with control := "pause", status := "paused" }

/-- The locked mutation of `cancel_task` (main.py lines 487–489). -/
def cancelOp (t : TaskState) : TaskState := { t with control := "cancel", status := "canceled" }

/-- The locked mutation of `resume_task` (main.py lines 500–502). -/
def resumeOp (t : TaskState) : TaskState := { t with control := "", status := "downloading" }

/-- `cancel_task` (main.py lines 481–490). -/
def cancel_task (m : Mgr) (tid : String) : Except HErr (Mgr × TaskState) :=
  match lookupTask m tid with
  | none => Except.error ⟨404, "Task not found"⟩
  | some t =>
    let t' := cancelOp t
    Except.ok (updateTask m tid t', t')

/-- `pause_task` (main.py lines 469–478). -/
def pause_task (m : Mgr) (tid : String) : Except HErr (Mgr × TaskState) :=
  match lookupTask m tid with
  | none => Except.error ⟨404, "Task not found"⟩
  | some t =>
    let t' := pauseOp t
    Except.ok (updateTask m tid t', t')

/-- The synchronous part of `resume_task` (main.py lines 493–513): clear
the control flag, set `downloading`, relaunch a worker (asynchronous). -/
def resume_task (m : Mgr) (tid : String) : Except HErr (Mgr × TaskState) :=
  match lookupTask m tid with
  | none => Except.error ⟨404, "Task not found"⟩
  | some t =>
    let t' := resumeOp t
    Except.ok (updateTask m tid t', t')

/-- The worker launched by `start_download`'s `runner` (main.py lines
440–448): dispatch on category, with an `else` branch recording
"Unsupported category". -/
def startRunner (t : TaskState) (lines : List String) (globMatch : Option String)
    (now : String) (env : ImageEnv) : TaskState :=
  if t.category = "video" ∨ t.category = "audio" then run_ytdlp t lines globMatch now
  else if t.category = "image" then run_image t env
  else setError t "Unsupported category"

/-- The worker launched by `resume_task`'s `runner` (main.py lines
504–508): the same dispatch but with no `else` branch, so an
unsupported category leaves the task untouched. -/
def resumeRunner (t : TaskState) (lines : List String) (globMatch : Option String)
    (now : String) (env : ImageEnv) : TaskState :=
  if t.category = "video" ∨ t.category = "audio" then run_ytdlp t lines globMatch now
  else if t.category = "image" then run_image t env
  else t

/-! ## Cleanup sweeper -/

/-- The download directory, as a map from filename to last-modified
time (`os.path.getmtime`) in seconds. -/
abbrev FileSys := List (String × ℚ)

/-- `os.path.exists` + `os.path.getmtime`. -/
def fsLookup : FileSys → String → Option ℚ
  | [], _ => none
  | (f, m) :: rest, g => if f = g then some m else fsLookup rest g

/-- `os.remove`. -/
def fsRemove (fs : FileSys) (g : String) : FileSys :=
  fs.filter (fun p => p.1 ≠ g)

/-- The body of one task's inspection inside a `cleanup_worker` pass
(main.py lines 400–412). -/
def sweepTask (now : ℚ) (fs : FileSys) (t : TaskState) : FileSys :=
  if (t.status = "completed" ∨ t.status = "canceled") ∧ pyTruthy t.filename = true then
    match t.filename with
    | some f =>
      match fsLookup fs f with
      | some mtime => if now - mtime > 600 then fsRemove fs f else fs
      | none => fs
    | none => fs
  else fs

/-- One full pass of `cleanup_worker` over the registry (main.py lines
398–412). -/
def cleanup_pass (m : Mgr) (fs : FileSys) (now : ℚ) : FileSys :=
  m.foldl (fun acc p => sweepTask now acc p.2) fs

/-! ## The per-task step relation

Each constructor is one locked block of the source (or one loop
iteration whose locked writes touch disjoint claim-relevant fields),
covering both workers, the worker-launch paths and the HTTP control
endpoints.  External interleavings of these steps over-approximate the
states a `Task` object can pass through. -/

inductive Step : TaskState → TaskState → Prop where
  /-- Worker entry (both workers): main.py 234–236 / 344–346. -/
  | start_worker (t : TaskState) : Step t (workerStart t)
  /-- One `run_ytdlp` loop iteration: main.py 251–305. -/
  | line (t : TaskState) (l : String) : Step t (processLine t l).1
  /-- The glob fallback: main.py 310–316. -/
  | glob_adopt (t : TaskState) (f : String) : t.filename = none → Step t (globAdopt t f)
  /-- The final block of `run_ytdlp`: main.py 318–334. -/
  | finish (t : TaskState) (now : String) : Step t (finalize t now)
  /-- Either worker's exception handler, or the unsupported-category
  branch of `start_download`'s runner: main.py 336–339 / 390–393 /
  446–448. -/
  | fail (t : TaskState) (msg : String) : Step t (setError t msg)
  /-- One `run_image` chunk update: main.py 374–380 (entered only when
  a total size was reported). -/
  | image_chunk (t : TaskState) (downloaded total elapsed : ℚ) :
      total ≠ 0 → Step t (imageChunk t downloaded total elapsed)
  /-- `run_image` completion: main.py 382–388. -/
  | image_done (t : TaskState) (fname now : String) : Step t (imageComplete t fname now)
  /-- `run_image` pause checkpoint: main.py 364–366. -/
  | image_pause (t : TaskState) : t.control = "pause" → Step t { t with status := "paused" }
  /-- `run_image` cancel checkpoint: main.py 367–369. -/
  | image_cancel (t : TaskState) : t.control = "cancel" → Step t { t with status := "canceled" }
  /-- The `pause` endpoint: main.py 475–477. -/
  | ep_pause (t : TaskState) : Step t (pauseOp t)
  /-- The `cancel` endpoint: main.py 487–489. -/
  | ep_cancel (t : TaskState) : Step t (cancelOp t)
  /-- The `resume` endpoint: main.py 500–502. -/
  | ep_resume (t : TaskState) : Step t (resumeOp t)
  /-- The title prefetch write in `start_download`: main.py 436–438. -/
  | set_title (t : TaskState) (s : String) : Step t { t with title := some s }

/-- Reachability from a given state through any interleaving of steps. -/
inductive Reachable (init : TaskState) : TaskState → Prop where
  | refl : Reachable init init
  | step {t t' : TaskState} : Reachable init t → Step t t' → Reachable init t'

/-! ## Concrete requests, tasks and traces used in witnesses -/

/-- A typical video start request. -/
def reqV : StartRequest :=
  { url := "http://example.com/v", category := "video", fmt := "mp4", quality := "720p" }

/-- A freshly launched media task (status `downloading`). -/
def tDl : TaskState := workerStart (initTask "t4" reqV)

/-- The task state after the worker parses a destination line while the
download is still in flight. -/
def c1state : TaskState :=
  (processLine (workerStart (initTask "t1" reqV)) "Destination: \"a.mp4\"").1

/-- A task at 50% progress, still `downloading`. -/
def c2half : TaskState :=
  (processLine (workerStart (initTask "t2" reqV)) "[download]  50.0% of 10.00MiB").1

/-- The same task after pause, resume, and the relaunched worker's entry
block (which resets progress to `0.0`). -/
def c2relaunched : TaskState := workerStart (resumeOp (pauseOp c2half))

/-- The destination line of the C9 scenario. -/
def dLine : String := "Destination: \"My Video.mp4\""

/-- A `pending` task used to fill the registry. -/
def pendingTask : TaskState := initTask "p" reqV

/-- A registry holding 20 active (pending) tasks. -/
def mgr20 : Mgr := List.replicate 20 ("p", pendingTask)

/-- A completed task with a known artifact. -/
def doneTask : TaskState := { initTask "d" reqV with status := "completed", filename := some "d.mp4" }

/-- A task of an unsupported category. -/
def docTask : TaskState :=
  initTask "doc1" { url := "http://example.com/d", category := "doc", fmt := "", quality := "" }

/-- A trivial image-worker environment. -/
def envW : ImageEnv := { failure := none, chunks := [], total := 0, now := "n" }

/-! ## Field-preservation lemmas for the media worker's line processing -/

@[simp] theorem etaBlock_progress (t : TaskState) (l : String) :
    (etaBlock t l).progress = t.progress := by
  unfold etaBlock; split <;> rfl

@[simp] theorem etaBlock_status (t : TaskState) (l : String) :
    (etaBlock t l).status = t.status := by
  unfold etaBlock; split <;> rfl

@[simp] theorem etaBlock_control (t : TaskState) (l : String) :
    (etaBlock t l).control = t.control := by
  unfold etaBlock; split <;> rfl

@[simp] theorem etaBlock_filename (t : TaskState) (l : String) :
    (etaBlock t l).filename = t.filename := by
  unfold etaBlock; split <;> rfl

@[simp] theorem etaBlock_download_url (t : TaskState) (l : String) :
    (etaBlock t l).download_url = t.download_url := by
  unfold etaBlock; split <;> rfl

@[simp] theorem etaBlock_title (t : TaskState) (l : String) :
    (etaBlock t l).title = t.title := by
  unfold etaBlock; split <;> rfl

@[simp] theorem etaBlock_message (t : TaskState) (l : String) :
    (etaBlock t l).message = t.message := by
  unfold etaBlock; split <;> rfl

@[simp] theorem etaBlock_downloaded_at (t : TaskState) (l : String) :
    (etaBlock t l).downloaded_at = t.downloaded_at := by
  unfold etaBlock; split <;> rfl

theorem pctBlock_other (t : TaskState) (l : String) :
    (pctBlock t l).status = t.status ∧ (pctBlock t l).control = t.control ∧
    (pctBlock t l).filename = t.filename ∧ (pctBlock t l).download_url = t.download_url ∧
    (pctBlock t l).title = t.title ∧ (pctBlock t l).message = t.message ∧
    (pctBlock t l).downloaded_at = t.downloaded_at := by
  unfold pctBlock
  repeat' split
  all_goals simp

theorem pctBlock_progress (t : TaskState) (l : String) :
    (pctBlock t l).progress = t.progress ∨
      ∃ v : ℚ, (pctBlock t l).progress = max 0 (min 1 v) := by
  unfold pctBlock
  split
  · exact Or.inl rfl
  · rename_i pct _
    refine Or.inr ⟨pct / 100, ?_⟩
    repeat' split
    all_goals simp

theorem pctBlock_progress_of_pct (t : TaskState) (l : String) (v : ℚ)
    (h : pctOf l = some v) :
    (pctBlock t l).progress = max 0 (min 1 (v / 100)) := by
  unfold pctBlock
  rw [h]
  simp only
  repeat' split
  all_goals simp

theorem destBlock_other (t : TaskState) (l : String) :
    (destBlock t l).progress = t.progress ∧ (destBlock t l).status = t.status ∧
    (destBlock t l).control = t.control ∧ (destBlock t l).title = t.title ∧
    (destBlock t l).message = t.message ∧ (destBlock t l).downloaded_at = t.downloaded_at := by
  unfold destBlock
  split <;> simp

theorem destBlock_pair (t : TaskState) (l : String) :
    ((destBlock t l).filename = t.filename ∧ (destBlock t l).download_url = t.download_url) ∨
      ∃ f, (destBlock t l).filename = some f ∧
        (destBlock t l).download_url = some ("/downloads/" ++ f) := by
  unfold destBlock
  split
  · exact Or.inr ⟨_, rfl, rfl⟩
  · exact Or.inl ⟨rfl, rfl⟩

theorem mergeBlock_other (t : TaskState) (l : String) :
    (mergeBlock t l).progress = t.progress ∧ (mergeBlock t l).status = t.status ∧
    (mergeBlock t l).control = t.control ∧ (mergeBlock t l).title = t.title ∧
    (mergeBlock t l).message = t.message ∧ (mergeBlock t l).downloaded_at = t.downloaded_at := by
  unfold mergeBlock
  split <;> simp

theorem mergeBlock_pair (t : TaskState) (l : String) :
    ((mergeBlock t l).filename = t.filename ∧ (mergeBlock t l).download_url = t.download_url) ∨
      ∃ f, (mergeBlock t l).filename = some f ∧
        (mergeBlock t l).download_url = some ("/downloads/" ++ f) := by
  unfold mergeBlock
  split
  · exact Or.inr ⟨_, rfl, rfl⟩
  · exact Or.inl ⟨rfl, rfl⟩

theorem controlBlock_other (t : TaskState) :
    (controlBlock t).1.progress = t.progress ∧ (controlBlock t).1.control = t.control ∧
    (controlBlock t).1.filename = t.filename ∧
    (controlBlock t).1.download_url = t.download_url ∧
    (controlBlock t).1.title = t.title ∧ (controlBlock t).1.message = t.message ∧
    (controlBlock t).1.downloaded_at = t.downloaded_at := by
  unfold controlBlock
  split <;> [skip; split] <;> simp

theorem controlBlock_status (t : TaskState) :
    (controlBlock t).1.status = t.status ∨ (controlBlock t).1.status = "paused" ∨
      (controlBlock t).1.status = "canceled" := by
  unfold controlBlock
  split
  · exact Or.inr (Or.inl rfl)
  · split
    · exact Or.inr (Or.inr rfl)
    · exact Or.inl rfl

theorem controlBlock_of_empty (t : TaskState) (h : t.control = "") :
    controlBlock t = (t, false) := by
  unfold controlBlock
  rw [h]
  simp

/-! ## Combined `processLine` lemmas -/

theorem processLine_progress (t : TaskState) (raw : String) :
    (processLine t raw).1.progress = t.progress ∨
      ∃ v : ℚ, (processLine t raw).1.progress = max 0 (min 1 v) := by
  unfold processLine
  have hc := (controlBlock_other (mergeBlock (destBlock (pctBlock t (pyStrip raw)) (pyStrip raw)) (pyStrip raw))).1
  have hm := (mergeBlock_other (destBlock (pctBlock t (pyStrip raw)) (pyStrip raw)) (pyStrip raw)).1
  have hd := (destBlock_other (pctBlock t (pyStrip raw)) (pyStrip raw)).1
  rw [hc, hm, hd]
  exact pctBlock_progress t (pyStrip raw)

theorem processLine_progress_of_pct (t : TaskState) (raw : String) (v : ℚ)
    (h : pctOf (pyStrip raw) = some v) :
    (processLine t raw).1.progress = max 0 (min 1 (v / 100)) := by
  unfold processLine
  have hc := (controlBlock_other (mergeBlock (destBlock (pctBlock t (pyStrip raw)) (pyStrip raw)) (pyStrip raw))).1
  have hm := (mergeBlock_other (destBlock (pctBlock t (pyStrip raw)) (pyStrip raw)) (pyStrip raw)).1
  have hd := (destBlock_other (pctBlock t (pyStrip raw)) (pyStrip raw)).1
  rw [hc, hm, hd]
  exact pctBlock_progress_of_pct t (pyStrip raw) v h

theorem processLine_pair (t : TaskState) (raw : String) :
    ((processLine t raw).1.filename = t.filename ∧
      (processLine t raw).1.download_url = t.download_url) ∨
      ∃ f, (processLine t raw).1.filename = some f ∧
        (processLine t raw).1.download_url = some ("/downloads/" ++ f) := by
  unfold processLine
  have hc1 := (controlBlock_other (mergeBlock (destBlock (pctBlock t (pyStrip raw)) (pyStrip raw)) (pyStrip raw))).2.2.1
  have hc2 := (controlBlock_other (mergeBlock (destBlock (pctBlock t (pyStrip raw)) (pyStrip raw)) (pyStrip raw))).2.2.2.1
  rw [hc1, hc2]
  rcases mergeBlock_pair (destBlock (pctBlock t (pyStrip raw)) (pyStrip raw)) (pyStrip raw) with
    ⟨hm1, hm2⟩ | ⟨f, hf1, hf2⟩
  · rw [hm1, hm2]
    rcases destBlock_pair (pctBlock t (pyStrip raw)) (pyStrip raw) with
      ⟨hd1, hd2⟩ | ⟨f, hf1, hf2⟩
    · rw [hd1, hd2, (pctBlock_other t (pyStrip raw)).2.2.1,
        (pctBlock_other t (pyStrip raw)).2.2.2.1]
      exact Or.inl ⟨rfl, rfl⟩
    · exact Or.inr ⟨f, hf1, hf2⟩
  · exact Or.inr ⟨f, hf1, hf2⟩

theorem processLine_title (t : TaskState) (raw : String) :
    (processLine t raw).1.title = t.title := by
  unfold processLine
  rw [(controlBlock_other _).2.2.2.2.1, (mergeBlock_other _ _).2.2.2.1,
    (destBlock_other _ _).2.2.2.1, (pctBlock_other _ _).2.2.2.2.1]

theorem processLine_of_ctl (t : TaskState) (raw : String) (h : t.control = "") :
    processLine t raw =
      (mergeBlock (destBlock (pctBlock t (pyStrip raw)) (pyStrip raw)) (pyStrip raw), false) := by
  unfold processLine
  apply controlBlock_of_empty
  rw [(mergeBlock_other _ _).2.2.1, (destBlock_other _ _).2.2.1, (pctBlock_other _ _).2.1]
  exact h

theorem processLine_status_of_ctl (t : TaskState) (raw : String) (h : t.control = "") :
    (processLine t raw).1.status = t.status ∧ (processLine t raw).1.control = "" ∧
      (processLine t raw).2 = false := by
  rw [processLine_of_ctl t raw h]
  refine ⟨?_, ?_, rfl⟩
  · rw [(mergeBlock_other _ _).2.1, (destBlock_other _ _).2.1, (pctBlock_other _ _).1]
  · rw [(mergeBlock_other _ _).2.2.1, (destBlock_other _ _).2.2.1, (pctBlock_other _ _).2.1]
    exact h

theorem processLines_of_ctl (t : TaskState) (ls : List String) (h : t.control = "") :
    (processLines t ls).1.status = t.status ∧ (processLines t ls).1.control = "" ∧
      (processLines t ls).2 = false := by
  induction ls generalizing t with
  | nil => exact ⟨rfl, h, rfl⟩
  | cons l ls ih =>
    have hl := processLine_status_of_ctl t l h
    unfold processLines
    rcases hp : processLine t l with ⟨t', b⟩
    rw [hp] at hl
    rcases hl with ⟨hst, hctl, hb⟩
    simp only at hst hctl hb
    subst hb
    simp only
    have := ih t' hctl
    exact ⟨by rw [this.1, hst], this.2.1, this.2.2⟩

/-! ## Helper lemmas: clamping, finalize, registry lookup -/

theorem clamp01_mem (v : ℚ) : 0 ≤ max 0 (min 1 v) ∧ max 0 (min 1 v) ≤ 1 :=
  ⟨le_max_left 0 _, max_le (by norm_num) (min_le_left 1 v)⟩

theorem pyTruthy_some_ne (s : String) (h : s ≠ "") : pyTruthy (some s) = true := by
  simp [pyTruthy, h]

theorem pyTruthy_true_elim (o : Option String) (h : pyTruthy o = true) :
    ∃ f, o = some f ∧ f ≠ "" := by
  rcases o with _ | s
  · cases h
  · refine ⟨s, rfl, ?_⟩
    intro he
    rw [he] at h
    cases h

theorem finalize_progress (t : TaskState) (now : String) :
    (finalize t now).progress = t.progress ∨ (finalize t now).progress = 1 := by
  unfold finalize
  by_cases hs : t.status ≠ "paused" ∧ t.status ≠ "canceled"
  · rw [if_pos hs]
    rcases hf : t.filename with _ | f
    · right; simp [hf]
    · by_cases hfe : f = ""
      · right; simp [hf, hfe]
      · right; simp [hf, hfe]
  · rw [if_neg hs]
    left; rfl

theorem finalize_pair (t : TaskState) (now : String) :
    (finalize t now).filename = t.filename ∧
    ((finalize t now).download_url = t.download_url ∨
      ∃ f, t.filename = some f ∧
        (finalize t now).download_url = some ("/downloads/" ++ f)) := by
  unfold finalize
  by_cases hs : t.status ≠ "paused" ∧ t.status ≠ "canceled"
  · rw [if_pos hs]
    rcases hf : t.filename with _ | f
    · simp [hf]
    · by_cases hfe : f = ""
      · simp [hf, hfe]
      · simp [hf, hfe]
  · rw [if_neg hs]
    exact ⟨rfl, Or.inl rfl⟩

theorem finalize_of_downloading_some (t : TaskState) (now f : String)
    (hs : t.status = "downloading") (hf : t.filename = some f) (hfe : f ≠ "") :
    finalize t now =
      { t with progress := 1, status := "completed", downloaded_at := some now,
               download_url := some ("/downloads/" ++ f) } := by
  unfold finalize
  rw [if_pos (show t.status ≠ "paused" ∧ t.status ≠ "canceled" by
    rw [hs]; exact ⟨by decide, by decide⟩)]
  simp [hf, hfe]

theorem finalize_of_downloading_unres (t : TaskState) (now : String)
    (hs : t.status = "downloading") (hf : pyTruthy t.filename = false) :
    finalize t now =
      { t with progress := 1, status := "error", downloaded_at := some now,
               message := some "Download finished but file not found" } := by
  unfold finalize
  rw [if_pos (show t.status ≠ "paused" ∧ t.status ≠ "canceled" by
    rw [hs]; exact ⟨by decide, by decide⟩)]
  rcases hfn : t.filename with _ | f
  · simp [hfn]
  · have hfe : f = "" := by
      rw [hfn] at hf
      by_cases he : f = ""
      · exact he
      · rw [pyTruthy_some_ne f he] at hf
        cases hf
    simp [hfn, hfe]

theorem lookupTask_updateTask (m : Mgr) (tid : String) (t' : TaskState)
    (h : lookupTask m tid ≠ none) :
    lookupTask (updateTask m tid t') tid = some t' := by
  induction m with
  | nil => exact absurd rfl h
  | cons p rest ih =>
    rcases p with ⟨k, t⟩
    unfold updateTask
    by_cases hk : k = tid
    · rw [if_pos hk]
      unfold lookupTask
      rw [if_pos hk]
    · rw [if_neg hk]
      unfold lookupTask
      rw [if_neg hk]
      apply ih
      unfold lookupTask at h
      rwa [if_neg hk] at h

/-! ## Claim theorems -/

theorem step_progress {a b : TaskState} (hs : Step a b)
    (ih : 0 ≤ a.progress ∧ a.progress ≤ 1) : 0 ≤ b.progress ∧ b.progress ≤ 1 := by
  cases hs with
  | start_worker => exact ⟨le_refl 0, by show (0 : ℚ) ≤ 1; norm_num⟩
  | line l =>
    rcases processLine_progress a l with hp | ⟨v, hp⟩
    · rw [hp]; exact ih
    · rw [hp]; exact clamp01_mem v
  | glob_adopt f hf => exact ih
  | finish now =>
    rcases finalize_progress a now with hp | hp
    · rw [hp]; exact ih
    · rw [hp]; exact ⟨by norm_num, le_refl 1⟩
  | fail msg => exact ih
  | image_chunk downloaded total elapsed ht => exact clamp01_mem _
  | image_done fname now => exact ⟨by show (0 : ℚ) ≤ 1; norm_num, le_refl 1⟩
  | image_pause hc => exact ih
  | image_cancel hc => exact ih
  | ep_pause => exact ih
  | ep_cancel => exact ih
  | ep_resume => exact ih
  | set_title s => exact ih

/-- C3: for every task and after every operation of either worker (and
any interleaved control operation), the stored progress fraction lies in
[0.0, 1.0]: every parsed percentage and every computed byte ratio is
clamped before being written. -/
theorem progress_in_unit_interval (tid : String) (req : StartRequest) (s : TaskState)
    (h : Reachable (initTask tid req) s) : 0 ≤ s.progress ∧ s.progress ≤ 1 := by
  induction h with
  | refl => exact ⟨le_refl 0, by show (0 : ℚ) ≤ 1; norm_num⟩
  | step _ hs ih => exact step_progress hs ih

/-- C3 witness: the bounds hold at a concrete reachable state (after the
worker entry block and one parsed progress line). -/
theorem progress_in_unit_interval_witness :
    0 ≤ ((processLine tDl "[download]  42.5% of 10.00MiB at 1.20MiB/s ETA 00:30").1).progress ∧
      ((processLine tDl "[download]  42.5% of 10.00MiB at 1.20MiB/s ETA 00:30").1).progress ≤ 1 :=
  progress_in_unit_interval "t4" reqV _
    (Reachable.step (Reachable.step Reachable.refl (Step.start_worker _)) (Step.line _ _))

/-- C1 counterexample: a `Destination:` line parsed while the task is
still `downloading` sets `download_url` together with `filename`, so at
that reachable state `download_url` is non-null although the status is
not `completed` — refuting the claimed invariant. -/
theorem download_url_invariant_cex :
    Reachable (initTask "t1" reqV) c1state ∧
      ¬ (c1state.download_url ≠ none ↔ c1state.filename ≠ none ∧ c1state.status = "completed") :=
  ⟨Reachable.step (Reachable.step Reachable.refl (Step.start_worker _)) (Step.line _ _),
   by decide⟩

theorem step_pair {a b : TaskState} (hs : Step a b)
    (ih : a.download_url ≠ none ↔ a.filename ≠ none) :
    b.download_url ≠ none ↔ b.filename ≠ none := by
  cases hs with
  | start_worker => exact ih
  | line l =>
    rcases processLine_pair a l with ⟨h1, h2⟩ | ⟨f, h1, h2⟩
    · rw [h1, h2]; exact ih
    · rw [h1, h2]; simp
  | glob_adopt f hf => simp [globAdopt]
  | finish now =>
    rcases finalize_pair a now with ⟨h1, h2 | ⟨f, hf, h2⟩⟩
    · rw [h1, h2]; exact ih
    · rw [h1, h2, hf]; simp
  | fail msg => exact ih
  | image_chunk downloaded total elapsed ht => exact ih
  | image_done fname now => simp [imageComplete]
  | image_pause hc => exact ih
  | image_cancel hc => exact ih
  | ep_pause => exact ih
  | ep_cancel => exact ih
  | ep_resume => exact ih
  | set_title s => exact ih

/-- C1 amended: at every reachable point of a task's lifecycle,
`download_url` is non-null iff `filename` is non-null (the two are only
ever written together); the "status is `completed`" conjunct of the
original claim does not hold, since both fields are already set while
the task is still `downloading`. -/
theorem download_url_iff_filename (tid : String) (req : StartRequest) (s : TaskState)
    (h : Reachable (initTask tid req) s) :
    s.download_url ≠ none ↔ s.filename ≠ none := by
  induction h with
  | refl => simp [initTask]
  | step _ hs ih => exact step_pair hs ih

/-- C1 amended witness: the equivalence at the concrete reachable state
of the counterexample trace. -/
theorem download_url_iff_filename_witness :
    c1state.download_url ≠ none ↔ c1state.filename ≠ none :=
  download_url_iff_filename "t1" reqV c1state
    (Reachable.step (Reachable.step Reachable.refl (Step.start_worker _)) (Step.line _ _))

theorem destBlock_noop (t : TaskState) (line : String)
    (h : containsSub line "Destination:" = false) : destBlock t line = t := by
  unfold destBlock
  rw [if_neg (show ¬ (containsSub line "Destination:" = true) by simp [h])]

theorem mergeBlock_noop (t : TaskState) (line : String)
    (h : containsSub line "Merging formats into \"" = false) : mergeBlock t line = t := by
  unfold mergeBlock
  rw [if_neg (show ¬ (containsSub line "Merging formats into \"" = true) by simp [h])]

theorem pctBlock_full (t : TaskState) (line : String) (v : ℚ) (val u : String) (w : ℚ)
    (mm ss : Nat) (hp : pctOf line = some v)
    (hsp : speedSearch line.data = some (val, u)) (hw : pyFloat val = some w)
    (he : etaSearch line.data = some (mm, ss)) :
    pctBlock t line =
      { t with progress := max 0 (min 1 (v / 100)),
               speed := some (w *
                 (if u = "KiB" then (1024 : ℚ) else if u = "MiB" then 1024 ^ 2 else 1024 ^ 3)),
               eta := some ((mm : Int) * 60 + (ss : Int)) } := by
  unfold pctBlock
  rw [hp]
  simp only
  rw [hsp]
  simp only
  rw [hw]
  simp only
  unfold etaBlock
  rw [he]

/-- C2 counterexample: progress is not monotone across the updates
performed while status is `downloading`.  A task at 50% is paused and
resumed; the relaunch re-enters `downloading` and the relaunched
worker's entry block resets progress to 0.0, so along one lifecycle
trace progress goes from 1/2 to 0 with status `downloading` at both
update points. -/
theorem progress_monotone_cex :
    Reachable (initTask "t2" reqV) c2half ∧ Reachable c2half c2relaunched ∧
      c2half.status = "downloading" ∧ c2relaunched.status = "downloading" ∧
      c2relaunched.progress < c2half.progress := by
  refine ⟨Reachable.step (Reachable.step Reachable.refl (Step.start_worker _)) (Step.line _ _),
    Reachable.step
      (Reachable.step (Reachable.step Reachable.refl (Step.ep_pause _)) (Step.ep_resume _))
      (Step.start_worker _),
    by decide, by decide, ?_⟩
  have hv : pctOf (pyStrip "[download]  50.0% of 10.00MiB") = some 50 := by
    have h : pctOf (pyStrip "[download]  50.0% of 10.00MiB") = pyFloat "50.0" := rfl
    rw [h]
    simp +decide [pyFloat, stripList, digitsToNat]
  have hp : c2half.progress = max 0 (min 1 ((50 : ℚ) / 100)) :=
    processLine_progress_of_pct (workerStart (initTask "t2" reqV)) _ 50 hv
  have h2 : c2half.progress = 1 / 2 := by
    rw [hp]
    rw [min_eq_right (by norm_num), max_eq_right (by norm_num)]
    norm_num
  rw [h2]
  show (0 : ℚ) < 1 / 2
  norm_num

/-- C2 amended: while a task is `downloading`, each parsed percentage
overwrites the progress field with its clamped value (regardless of the
previous value), and a relaunched worker resets progress to 0.0; hence
progress is non-decreasing across such updates exactly when the clamped
parsed values themselves do not decrease, not unconditionally. -/
theorem progress_update_overwrites (t : TaskState) (raw : String) (v : ℚ)
    (hs : t.status = "downloading") (h : pctOf (pyStrip raw) = some v) :
    (processLine t raw).1.progress = max 0 (min 1 (v / 100)) ∧
      (workerStart t).progress = 0 ∧
      (t.progress ≤ max 0 (min 1 (v / 100)) → t.progress ≤ (processLine t raw).1.progress) := by
  refine ⟨processLine_progress_of_pct t raw v h, rfl, ?_⟩
  intro hle
  rw [processLine_progress_of_pct t raw v h]
  exact hle

/-- C2 amended witness: a concrete downloading task and percent line. -/
theorem progress_update_overwrites_witness :
    (processLine tDl "[download] 37.5% of x").1.progress = max 0 (min 1 ((75 : ℚ) / 2 / 100)) ∧
      (workerStart tDl).progress = 0 ∧
      (tDl.progress ≤ max 0 (min 1 ((75 : ℚ) / 2 / 100)) →
        tDl.progress ≤ (processLine tDl "[download] 37.5% of x").1.progress) :=
  progress_update_overwrites tDl "[download] 37.5% of x" (75 / 2) rfl (by
    have h : pctOf (pyStrip "[download] 37.5% of x") = pyFloat "37.5" := rfl
    rw [h]
    simp +decide [pyFloat, stripList, digitsToNat]
    norm_num)

/-- C4: the line `[download]  42.5% of 10.00MiB at 1.20MiB/s ETA 00:30`
parses to progress 0.425, speed 1.2 × 1024² bytes per second, and an ETA
of 30 seconds. -/
theorem progress_line_roundtrip :
    (processLine tDl "[download]  42.5% of 10.00MiB at 1.20MiB/s ETA 00:30").1.progress
        = 425 / 1000 ∧
      (processLine tDl "[download]  42.5% of 10.00MiB at 1.20MiB/s ETA 00:30").1.speed
        = some ((12 / 10) * 1024 ^ 2) ∧
      (processLine tDl "[download]  42.5% of 10.00MiB at 1.20MiB/s ETA 00:30").1.eta
        = some 30 := by
  have hv : pctOf (pyStrip "[download]  42.5% of 10.00MiB at 1.20MiB/s ETA 00:30")
      = some (85 / 2) := by
    have h : pctOf (pyStrip "[download]  42.5% of 10.00MiB at 1.20MiB/s ETA 00:30")
        = pyFloat "42.5" := rfl
    rw [h]
    simp +decide [pyFloat, stripList, digitsToNat]
    norm_num
  have hsp : speedSearch (pyStrip "[download]  42.5% of 10.00MiB at 1.20MiB/s ETA 00:30").data
      = some ("1.20", "MiB") := by decide
  have hw : pyFloat "1.20" = some (6 / 5) := by
    simp +decide [pyFloat, stripList, digitsToNat]
    norm_num
  have he : etaSearch (pyStrip "[download]  42.5% of 10.00MiB at 1.20MiB/s ETA 00:30").data
      = some (0, 30) := by decide
  have hb := pctBlock_full tDl (pyStrip "[download]  42.5% of 10.00MiB at 1.20MiB/s ETA 00:30")
    (85 / 2) "1.20" "MiB" (6 / 5) 0 30 hv hsp hw he
  unfold processLine
  simp only
  rw [hb, destBlock_noop _ _ (by decide), mergeBlock_noop _ _ (by decide),
    controlBlock_of_empty _ rfl]
  refine ⟨?_, ?_, ?_⟩
  · show max 0 (min 1 ((85 : ℚ) / 2 / 100)) = 425 / 1000
    rw [min_eq_right (by norm_num), max_eq_right (by norm_num)]
    norm_num
  · show some ((6 : ℚ) / 5 *
        (if ("MiB" : String) = "KiB" then (1024 : ℚ)
         else if ("MiB" : String) = "MiB" then 1024 ^ 2 else 1024 ^ 3))
      = some ((12 / 10) * 1024 ^ 2)
    rw [if_neg (by decide), if_pos rfl]
    norm_num
  · show some (((0 : Nat) : Int) * 60 + ((30 : Nat) : Int)) = some (30 : Int)
    norm_num

/-- C9: processing the line `Destination: "My Video.mp4"` sets the
task's filename to `My Video.mp4` (quotes stripped, base name taken) and
leaves the title field unchanged, whatever the prior task state. -/
theorem destination_line_sets_filename (t : TaskState) :
    (processLine t dLine).1.filename = some "My Video.mp4" ∧
      (processLine t dLine).1.title = t.title := by
  refine ⟨?_, processLine_title t dLine⟩
  unfold processLine
  rw [(controlBlock_other _).2.2.1]
  have hm : mergeBlock (destBlock (pctBlock t (pyStrip dLine)) (pyStrip dLine)) (pyStrip dLine)
      = destBlock (pctBlock t (pyStrip dLine)) (pyStrip dLine) := by
    unfold mergeBlock
    rw [if_neg (by decide : ¬ (containsSub (pyStrip dLine) "Merging formats into \"" = true))]
  rw [hm]
  unfold destBlock
  rw [if_pos (by decide : containsSub (pyStrip dLine) "Destination:" = true)]
  show some (pyBasename _) = some "My Video.mp4"
  decide

/-- C9 witness: the destination line applied to a concrete downloading
task. -/
theorem destination_line_sets_filename_witness :
    (processLine tDl dLine).1.filename = some "My Video.mp4" ∧
      (processLine tDl dLine).1.title = tDl.title :=
  destination_line_sets_filename tDl

/-- C5: when the media worker's output stream is exhausted with no pause
or cancel triggered (the control flag stays clear): if a filename was
resolved — during streaming or by the task-id glob fallback — the task
ends `completed` with a completion timestamp and a download URL;
otherwise it ends `error` with exactly the message "Download finished
but file not found", not `completed`. -/
theorem stream_end_outcome (t0 : TaskState) (lines : List String) (globMatch : Option String)
    (now : String) (h : t0.control = "") :
    (∀ f, resolvedName t0 lines globMatch = some f →
      (run_ytdlp t0 lines globMatch now).status = "completed" ∧
      (run_ytdlp t0 lines globMatch now).downloaded_at = some now ∧
      (run_ytdlp t0 lines globMatch now).download_url = some ("/downloads/" ++ f)) ∧
    (resolvedName t0 lines globMatch = none →
      (run_ytdlp t0 lines globMatch now).status = "error" ∧
      (run_ytdlp t0 lines globMatch now).message = some "Download finished but file not found" ∧
      (run_ytdlp t0 lines globMatch now).status ≠ "completed") := by
  have hl := processLines_of_ctl (workerStart t0) lines h
  rcases hpl : processLines (workerStart t0) lines with ⟨t1, b⟩
  rw [hpl] at hl
  rcases hl with ⟨hst, hctl, hb⟩
  simp only at hst hctl hb
  subst hb
  have hst' : t1.status = "downloading" := hst
  have hrun : run_ytdlp t0 lines globMatch now =
      finalize (if pyTruthy t1.filename = false then
          match globMatch with
          | some g => globAdopt t1 g
          | none => t1
        else t1) now := by
    unfold run_ytdlp
    rw [hpl]
  by_cases ht : pyTruthy t1.filename = true
  · obtain ⟨f, hfn, hfe⟩ := pyTruthy_true_elim _ ht
    have hres : resolvedName t0 lines globMatch = some f := by
      unfold resolvedName
      rw [hpl]
      simp [hfn, hfe, pyTruthy]
    have hrun2 : run_ytdlp t0 lines globMatch now =
        { t1 with progress := 1, status := "completed", downloaded_at := some now,
                  download_url := some ("/downloads/" ++ f) } := by
      rw [hrun, if_neg (show ¬ (pyTruthy t1.filename = false) by simp [ht])]
      exact finalize_of_downloading_some t1 now f hst' hfn hfe
    constructor
    · intro f' hf'
      rw [hres] at hf'
      injection hf' with e
      subst e
      rw [hrun2]
      exact ⟨rfl, rfl, rfl⟩
    · intro hc
      rw [hres] at hc
      cases hc
  · have ht' : pyTruthy t1.filename = false := Bool.eq_false_iff.mpr ht
    rcases hg : globMatch with _ | g
    · subst hg
      have hres : resolvedName t0 lines none = none := by
        unfold resolvedName
        rw [hpl]
        simp [ht']
      have hrun2 : run_ytdlp t0 lines none now =
          { t1 with progress := 1, status := "error", downloaded_at := some now,
                    message := some "Download finished but file not found" } := by
        rw [hrun, if_pos ht']
        exact finalize_of_downloading_unres t1 now hst' ht'
      constructor
      · intro f' hf'
        rw [hres] at hf'
        cases hf'
      · intro _
        rw [hrun2]
        exact ⟨rfl, rfl, by show ("error" : String) ≠ "completed"; decide⟩
    · subst hg
      by_cases hge : g = ""
      · subst hge
        have hres : resolvedName t0 lines (some "") = none := by
          unfold resolvedName
          rw [hpl]
          simp only
          rw [if_pos ht']
          show (if pyTruthy (some "") = true then (some "" : Option String) else none) = none
          decide
        have hrun2 : run_ytdlp t0 lines (some "") now =
            { globAdopt t1 "" with progress := 1, status := "error", downloaded_at := some now,
                                   message := some "Download finished but file not found" } := by
          rw [hrun, if_pos ht']
          exact finalize_of_downloading_unres (globAdopt t1 "") now hst'
            (by simp [globAdopt, pyTruthy])
        constructor
        · intro f' hf'
          rw [hres] at hf'
          cases hf'
        · intro _
          rw [hrun2]
          exact ⟨rfl, rfl, by show ("error" : String) ≠ "completed"; decide⟩
      · have hres : resolvedName t0 lines (some g) = some g := by
          unfold resolvedName
          rw [hpl]
          simp only
          rw [if_pos ht']
          show (if pyTruthy (some g) = true then (some g : Option String) else none) = some g
          rw [if_pos (pyTruthy_some_ne g hge)]
        have hrun2 : run_ytdlp t0 lines (some g) now =
            { globAdopt t1 g with progress := 1, status := "completed",
                                  downloaded_at := some now,
                                  download_url := some ("/downloads/" ++ g) } := by
          rw [hrun, if_pos ht']
          exact finalize_of_downloading_some (globAdopt t1 g) now g hst' rfl hge
        constructor
        · intro f' hf'
          rw [hres] at hf'
          injection hf' with e
          subst e
          rw [hrun2]
          exact ⟨rfl, rfl, rfl⟩
        · intro hc
          rw [hres] at hc
          cases hc

/-- C5 witness: a run whose filename comes from the glob fallback ends
`completed`, and a run with no resolvable filename ends `error` with the
fixed message. -/
theorem stream_end_outcome_witness :
    ((run_ytdlp (initTask "t5" reqV) [] (some "t5.mp4") "ts").status = "completed" ∧
      (run_ytdlp (initTask "t5" reqV) [] (some "t5.mp4") "ts").downloaded_at = some "ts" ∧
      (run_ytdlp (initTask "t5" reqV) [] (some "t5.mp4") "ts").download_url
        = some ("/downloads/" ++ "t5.mp4")) ∧
    ((run_ytdlp (initTask "t6" reqV) [] none "ts").status = "error" ∧
      (run_ytdlp (initTask "t6" reqV) [] none "ts").message
        = some "Download finished but file not found") :=
  ⟨(stream_end_outcome (initTask "t5" reqV) [] (some "t5.mp4") "ts" rfl).1 "t5.mp4" rfl,
   ⟨((stream_end_outcome (initTask "t6" reqV) [] none "ts" rfl).2 rfl).1,
    ((stream_end_outcome (initTask "t6" reqV) [] none "ts" rfl).2 rfl).2.1⟩⟩

/-- C6: with 20 tasks simultaneously `pending` or `downloading`, a 21st
start request fails with a 429 client error whose message names the cap,
no task is created, and the registry size stays at 20. -/
theorem rate_limit_at_cap (m : Mgr) (tid : String) (req : StartRequest) (title : Option String)
    (h20 : m.length = 20)
    (hact : ∀ p ∈ m, p.2.status = "pending" ∨ p.2.status = "downloading") :
    start_download m tid req title =
      Except.error
        ⟨429, "⚠️ Too many active downloads (max 20). Please wait or clear old tasks."⟩ ∧
      mgrAfterStart m tid req title = m ∧ (mgrAfterStart m tid req title).length = 20 := by
  have hcount : activeCount m = 20 := by
    unfold activeCount
    rw [List.filter_eq_self.mpr, h20]
    intro p hp
    exact decide_eq_true (hact p hp)
  have hge : activeCount m ≥ MAX_TASKS := by
    rw [hcount]
    exact le_refl _
  have hsd : start_download m tid req title =
      Except.error
        ⟨429, "⚠️ Too many active downloads (max 20). Please wait or clear old tasks."⟩ := by
    unfold start_download
    rw [if_pos hge]
  refine ⟨hsd, ?_, ?_⟩
  · unfold mgrAfterStart
    rw [hsd]
  · unfold mgrAfterStart
    rw [hsd]
    exact h20

/-- C6 witness: a registry of 20 pending tasks rejects the 21st start. -/
theorem rate_limit_at_cap_witness :
    start_download mgr20 "new" reqV none =
      Except.error
        ⟨429, "⚠️ Too many active downloads (max 20). Please wait or clear old tasks."⟩ ∧
      mgrAfterStart mgr20 "new" reqV none = mgr20 ∧
      (mgrAfterStart mgr20 "new" reqV none).length = 20 :=
  rate_limit_at_cap mgr20 "new" reqV none (by decide) (by decide)

/-- C7: for every task id still present in the registry, cancelling
twice yields status `canceled` both times, and the second invocation
raises no error. -/
theorem cancel_idempotent (m : Mgr) (tid : String) (t : TaskState)
    (h : lookupTask m tid = some t) :
    ∃ m1 s1 m2 s2,
      cancel_task m tid = Except.ok (m1, s1) ∧ s1.status = "canceled" ∧
      cancel_task m1 tid = Except.ok (m2, s2) ∧ s2.status = "canceled" := by
  have h1 : cancel_task m tid = Except.ok (updateTask m tid (cancelOp t), cancelOp t) := by
    unfold cancel_task
    rw [h]
  have hl : lookupTask (updateTask m tid (cancelOp t)) tid = some (cancelOp t) :=
    lookupTask_updateTask m tid _ (by rw [h]; exact fun hc => Option.noConfusion hc)
  have h2 : cancel_task (updateTask m tid (cancelOp t)) tid =
      Except.ok (updateTask (updateTask m tid (cancelOp t)) tid (cancelOp (cancelOp t)),
        cancelOp (cancelOp t)) := by
    unfold cancel_task
    rw [hl]
  exact ⟨_, _, _, _, h1, rfl, h2, rfl⟩

/-- C7 witness: double cancel on a singleton registry. -/
theorem cancel_idempotent_witness :
    lookupTask [("p", pendingTask)] "p" = some pendingTask ∧
      ∃ m1 s1 m2 s2,
        cancel_task [("p", pendingTask)] "p" = Except.ok (m1, s1) ∧ s1.status = "canceled" ∧
        cancel_task m1 "p" = Except.ok (m2, s2) ∧ s2.status = "canceled" :=
  ⟨by decide, cancel_idempotent [("p", pendingTask)] "p" pendingTask (by decide)⟩

/-- C8: one sweeper pass over a `completed`/`canceled` task with a known
artifact deletes the artifact exactly when its last-modified time is
strictly more than 600 seconds in the past. -/
theorem sweep_age_threshold (tid : String) (t : TaskState) (f : String) (mtime now : ℚ)
    (hstat : t.status = "completed" ∨ t.status = "canceled") (hf : t.filename = some f)
    (hne : f ≠ "") :
    (now - mtime > 600 → cleanup_pass [(tid, t)] [(f, mtime)] now = []) ∧
    (¬ now - mtime > 600 → cleanup_pass [(tid, t)] [(f, mtime)] now = [(f, mtime)]) := by
  have hbody : cleanup_pass [(tid, t)] [(f, mtime)] now = sweepTask now [(f, mtime)] t := rfl
  rw [hbody]
  unfold sweepTask
  rw [if_pos ⟨hstat, by rw [hf]; exact pyTruthy_some_ne f hne⟩, hf]
  simp only
  have hlook : fsLookup [(f, mtime)] f = some mtime := by
    unfold fsLookup
    rw [if_pos rfl]
  rw [hlook]
  simp only
  constructor
  · intro hold
    rw [if_pos hold]
    unfold fsRemove
    simp [List.filter]
  · intro hyoung
    rw [if_neg hyoung]

/-- C8 witness: an artifact 601 seconds old is removed, one 599 seconds
old is kept. -/
theorem sweep_age_threshold_witness :
    cleanup_pass [("d", doneTask)] [("d.mp4", 399)] 1000 = [] ∧
      cleanup_pass [("d", doneTask)] [("d.mp4", 401)] 1000 = [("d.mp4", 401)] :=
  ⟨(sweep_age_threshold "d" doneTask "d.mp4" 399 1000 (Or.inl rfl) rfl (by decide)).1
     (by norm_num),
   (sweep_age_threshold "d" doneTask "d.mp4" 401 1000 (Or.inl rfl) rfl (by decide)).2
     (by norm_num)⟩

/-- C10: for a task whose category is none of `video`, `audio`, `image`,
the resume endpoint sets status `downloading` and its relaunched runner
performs no state change at all, so the task stays `downloading` with no
error recorded — whereas start's runner marks such a task `error` with
message "Unsupported category". -/
theorem resume_unsupported_category (t : TaskState) (lines : List String)
    (globMatch : Option String) (now : String) (env : ImageEnv)
    (h1 : t.category ≠ "video") (h2 : t.category ≠ "audio") (h3 : t.category ≠ "image") :
    (resumeOp t).status = "downloading" ∧
      resumeRunner (resumeOp t) lines globMatch now env = resumeOp t ∧
      (resumeRunner (resumeOp t) lines globMatch now env).status = "downloading" ∧
      (resumeRunner (resumeOp t) lines globMatch now env).message = t.message ∧
      (startRunner t lines globMatch now env).status = "error" ∧
      (startRunner t lines globMatch now env).message = some "Unsupported category" := by
  have hna : ¬ ((resumeOp t).category = "video" ∨ (resumeOp t).category = "audio") := by
    rintro (hc | hc)
    · exact h1 hc
    · exact h2 hc
  have hrr : resumeRunner (resumeOp t) lines globMatch now env = resumeOp t := by
    unfold resumeRunner
    rw [if_neg hna, if_neg (show ¬ ((resumeOp t).category = "image") from h3)]
  have hna' : ¬ (t.category = "video" ∨ t.category = "audio") := by
    rintro (hc | hc)
    · exact h1 hc
    · exact h2 hc
  have hsr : startRunner t lines globMatch now env = setError t "Unsupported category" := by
    unfold startRunner
    rw [if_neg hna', if_neg h3]
  refine ⟨?_, hrr, ?_, ?_, ?_, ?_⟩
  · rfl
  · rw [hrr]; rfl
  · rw [hrr]; rfl
  · rw [hsr]; rfl
  · rw [hsr]; rfl

/-- C10 witness: a task of category `doc`. -/
theorem resume_unsupported_category_witness :
    (resumeOp docTask).status = "downloading" ∧
      resumeRunner (resumeOp docTask) [] none "n" envW = resumeOp docTask ∧
      (resumeRunner (resumeOp docTask) [] none "n" envW).status = "downloading" ∧
      (resumeRunner (resumeOp docTask) [] none "n" envW).message = docTask.message ∧
      (startRunner docTask [] none "n" envW).status = "error" ∧
      (startRunner docTask [] none "n" envW).message = some "Unsupported category" :=
  resume_unsupported_category docTask [] none "n" envW (by decide) (by decide) (by decide)

end JustDownload
